import Mathlib

/-
Verification development for the openrelik-worker-dissect repository.

The repository contains three Celery task modules, each of which builds a
command-line argument vector for an external Dissect tool, spawns it as a
child process, inspects the exit code and packages a task result:

  * src/rdump-jsonl.py   (task `rdump2jsonl`)
  * src/rdump-splunk.py  (task `rdump2splunk`)
  * src/target-query.py  (task `dissect`)

The definitions below are a shallow embedding of those task functions.
Python dictionaries of configuration values become association lists of
`ConfigVal`; `os.environ` becomes a function `String → Option String`;
`subprocess.Popen` becomes an oracle `Runner` mapping a run specification
(argument vector plus stdout destination) to an exit code and stderr text.
Every task returns the Python outcome (a result envelope or a raised
exception) together with the trace of processes it spawned, in order.
-/

/- Python configuration values as they occur in these tasks:
   strings, lists of strings, booleans, and None. -/

inductive ConfigVal where
  | vstr (s : String)
  | vlist (l : List String)
  | vbool (b : Bool)
  | vnone
deriving DecidableEq

/- A task_config dictionary: association list from option name to value. -/

abbrev TaskConfig := List (String × ConfigVal)

/- dict.get(key): the stored value, or None when the key is absent. -/

def cfgGet : TaskConfig → String → ConfigVal
  | [], _ => .vnone
  | (k, v) :: rest, key => if k == key then v else cfgGet rest key

/- dict.get(key, default): the stored value, or the default when absent. -/

def cfgGetD : TaskConfig → String → ConfigVal → ConfigVal
  | [], _, d => d
  | (k, v) :: rest, key, d => if k == key then v else cfgGetD rest key d

/- Python truthiness of a configuration value. -/

def pyTruthy : ConfigVal → Bool
  | .vstr s => s != ""
  | .vlist l => !l.isEmpty
  | .vbool b => b
  | .vnone => false

/- Python truthiness of an os.environ.get result. -/

def pyTruthyOpt : Option String → Bool
  | none => false
  | some s => s != ""

/- Python repr of a list of strings, as interpolated by an f-string. -/

def pyReprList (l : List String) : String :=
  "[" ++ String.intercalate ", " (l.map (fun s => "\x27" ++ s ++ "\x27")) ++ "]"

/- The process environment (os.environ.get). -/

abbrev EnvMap := String → Option String

/- One input file dictionary; only its "path" entry is read by the tasks. -/

structure InputFile where
  path : String
deriving DecidableEq

/- Where the child process's standard output is directed: a pipe
   (stdout=subprocess.PIPE) or an opened file handle (stdout=fh). -/

inductive StdoutDest where
  | pipe
  | toFile (p : String)
deriving DecidableEq

/- One spawned process: the argument vector and the stdout destination. -/

structure RunSpec where
  args : List String
  dest : StdoutDest
deriving DecidableEq

/- Outcome of one child process: exit code and captured stderr text. -/

structure ProcResult where
  returncode : Int
  stderrText : String

/- The external-process oracle standing in for subprocess.Popen. -/

abbrev Runner := RunSpec → ProcResult

/- Exceptions the task bodies can raise.  The tasks raise RuntimeError with
   a message; referencing a never-assigned local raises NameError; calling
   .lower() on a bool raises AttributeError; joining a non-string raises
   TypeError. -/

inductive TaskError where
  | runtimeError (msg : String)
  | nameError (n : String)
  | attributeError (a : String)
  | typeError (msg : String)
deriving DecidableEq

/- The create_task_result envelope as filled in by these tasks. -/

structure TaskResult where
  output_files : List String
  command : String
  dissect_version : String
deriving DecidableEq

/-
Embedding of src/rdump-jsonl.py, task rdump2jsonl.

The loop body builds ["rdump", path, "-J"], joins it for display,
spawns the process with stdout and stderr piped, and raises
RuntimeError on a non-zero exit code.  `final_command` is a local that
is only assigned inside the loop, modelled as an `Option String`
threaded through; referencing it unassigned is a NameError.
-/

def rdump2jsonl_go (runner : Runner) :
    Option String → List RunSpec → List InputFile →
    Except TaskError String × List RunSpec
  | fc, tr, [] =>
    (match fc with
     | some c => .ok c
     | none => .error (.nameError "final_command"), tr)
  | _, tr, f :: rest =>
    let command := ["rdump", f.path] ++ ["-J"]
    let fc' := String.intercalate " " command
    let spec : RunSpec := ⟨command, .pipe⟩
    let r := runner spec
    if r.returncode != 0 then
      (.error (.runtimeError ("Rdump failed with return code " ++ toString r.returncode)),
       tr ++ [spec])
    else
      rdump2jsonl_go runner (some fc') (tr ++ [spec]) rest

def rdump2jsonl (input_files : List InputFile) (runner : Runner) (version : String) :
    Except TaskError TaskResult × List RunSpec :=
  match rdump2jsonl_go runner none [] input_files with
  | (.ok fc, tr) => (.ok ⟨[], fc, version⟩, tr)
  | (.error e, tr) => (.error e, tr)

/-
Embedding of src/rdump-splunk.py, task rdump2splunk.
-/

/- Lines 111-113: for key in ["protocol", "sourcetype"], a stored list of
   more than one element raises RuntimeError naming the key and values. -/

def checkSingle (cfg : TaskConfig) (key : String) : Except TaskError Unit :=
  match cfgGet cfg key with
  | .vlist l =>
    if l.length > 1 then
      .error (.runtimeError ("Select only one " ++ key ++ ", got " ++ pyReprList l))
    else .ok ()
  | _ => .ok ()

/- Python str.lower(), character by character (the protocol and sourcetype
   values are ASCII enum words). -/

def pyLower (s : String) : String :=
  ⟨s.data.map Char.toLower⟩

/- Lines 115-132: resolve a single-choice value.  A list is lowercased
   elementwise and its head taken (default when empty); a truthy string is
   lowercased; a falsy value gives the default; a truthy bool would hit
   .lower() and raise AttributeError. -/

def pyLowerChoice (v : ConfigVal) (d : String) : Except TaskError String :=
  match v with
  | .vlist l =>
    let l2 := l.map pyLower
    .ok (match l2 with | [] => d | p :: _ => p)
  | .vstr s => .ok (if s == "" then d else pyLower s)
  | .vbool b => if b then .error (.attributeError "lower") else .ok d
  | .vnone => .ok d

/- Lines 152-153: for http/https the token value is appended to the URL
   query pieces; joining a non-string value would raise TypeError. -/

def tokenPiece (cfg : TaskConfig) (protocol : String) : Except TaskError (List String) :=
  if protocol == "http" || protocol == "https" then
    match cfgGet cfg "token" with
    | .vstr t => .ok ["&token=", t]
    | _ => .error (.typeError "sequence item: expected str instance")
  else .ok []

/- Lines 155-156: the ssl_verify=false marker is appended only when the
   protocol is https and disable_ssl is truthy. -/

def sslPiece (cfg : TaskConfig) (protocol : String) : List String :=
  if protocol == "https" && pyTruthy (cfgGet cfg "disable_ssl") then
    ["&ssl_verify=false"]
  else []

/- Lines 150-156: the rdump_param list, in the order the code extends it. -/

def buildParams (cfg : TaskConfig) (protocol sourcetype : String) :
    Except TaskError (List String) :=
  match tokenPiece cfg protocol with
  | .error e => .error e
  | .ok tp => .ok (["?sourcetype=", sourcetype] ++ tp ++ sslPiece cfg protocol)

/- Lines 148-159: the full destination URL handed to -w. -/

def buildFullUrl (cfg : TaskConfig) (host port protocol sourcetype : String) :
    Except TaskError String :=
  match buildParams cfg protocol sourcetype with
  | .error e => .error e
  | .ok ps =>
    .ok ("splunk+" ++ protocol ++ "://" ++ host ++ ":" ++ port ++ String.join ps)

/- Lines 103-139: the pre-loop phase, in source order: environment check,
   single-choice checks, protocol and sourcetype resolution, token check. -/

def splunkPre (env : EnvMap) (cfg : TaskConfig) :
    Except TaskError (String × String × String × String) :=
  let host := env "SPLUNK_HOST"
  let port := env "SPLUNK_PORT"
  if !pyTruthyOpt host || !pyTruthyOpt port then
    .error (.runtimeError "SPLUNK_HOST and SPLUNK_PORT environment variables are required")
  else
    match checkSingle cfg "protocol" with
    | .error e => .error e
    | .ok _ =>
    match checkSingle cfg "sourcetype" with
    | .error e => .error e
    | .ok _ =>
    match pyLowerChoice (cfgGetD cfg "protocol" (.vstr "tcp")) "tcp" with
    | .error e => .error e
    | .ok protocol =>
    match pyLowerChoice (cfgGetD cfg "sourcetype" (.vstr "records")) "records" with
    | .error e => .error e
    | .ok sourcetype =>
    if (protocol == "http" || protocol == "https") && !pyTruthy (cfgGet cfg "token") then
      .error (.runtimeError "Splunk HEC token is required for HTTP(S) protocol")
    else
      .ok (host.getD "", port.getD "", protocol, sourcetype)

/- Lines 143-177: the per-file loop of rdump2splunk. -/

def splunkLoop (cfg : TaskConfig) (host port protocol sourcetype : String)
    (runner : Runner) :
    Option String → List RunSpec → List InputFile →
    Except TaskError String × List RunSpec
  | fc, tr, [] =>
    (match fc with
     | some c => .ok c
     | none => .error (.nameError "final_command"), tr)
  | _, tr, f :: rest =>
    match buildFullUrl cfg host port protocol sourcetype with
    | .error e => (.error e, tr)
    | .ok full_url =>
      let command := ["rdump", f.path] ++ ["-w", full_url]
      let fc' := String.intercalate " " command
      let spec : RunSpec := ⟨command, .pipe⟩
      let r := runner spec
      if r.returncode != 0 then
        (.error (.runtimeError ("Rdump failed with return code " ++ toString r.returncode)),
         tr ++ [spec])
      else
        splunkLoop cfg host port protocol sourcetype runner (some fc') (tr ++ [spec]) rest

def rdump2splunk (env : EnvMap) (cfg : TaskConfig) (input_files : List InputFile)
    (runner : Runner) (version : String) :
    Except TaskError TaskResult × List RunSpec :=
  match splunkPre env cfg with
  | .error e => (.error e, [])
  | .ok (host, port, protocol, sourcetype) =>
    match splunkLoop cfg host port protocol sourcetype runner none [] input_files with
    | (.ok fc, tr) => (.ok ⟨[], fc, version⟩, tr)
    | (.error e, tr) => (.error e, tr)

/-
Embedding of src/target-query.py, task dissect.
-/

/- Lines 96-98: plugin resolution.  A falsy task_config (None or the empty
   dict) yields the full catalog; otherwise the stored "plugins" value is
   taken with the catalog as default, and any non-list value falls back to
   the catalog. -/

def pluginsList (otc : Option TaskConfig) (collected : List String) : List String :=
  let pv :=
    match otc with
    | some tc => if tc.isEmpty then ConfigVal.vlist collected
                 else cfgGetD tc "plugins" (.vlist collected)
    | none => ConfigVal.vlist collected
  match pv with
  | .vlist l => l
  | _ => collected

/- Line 99: the comma-joined value of the -f flag. -/

def pluginsFlagValue (otc : Option TaskConfig) (collected : List String) : String :=
  String.intercalate "," (pluginsList otc collected)

/- Lines 87-117: the per-file loop.  create_output_file is modelled by an
   allocator from the iteration index to a fresh output path; the process
   is spawned with stdout redirected to the opened output file and the
   literal tokens "-q", ">" and the output path included in the argument
   vector.  Lines 121-122 check the collected output files after the loop,
   before final_command is referenced. -/

def dissectLoop (otc : Option TaskConfig) (collected : List String)
    (mkOut : Nat → String) (runner : Runner) :
    Nat → Option String → List RunSpec → List String → List InputFile →
    Except TaskError (String × List String) × List RunSpec
  | _, fc, tr, outs, [] =>
    (if outs.isEmpty then
      .error (.runtimeError "Dissect didn\x27t create any output files")
     else
      match fc with
      | some c => .ok (c, outs)
      | none => .error (.nameError "final_command"), tr)
  | n, _, tr, outs, f :: rest =>
    let out := mkOut n
    let command := ["target-query", f.path] ++
      ["-f", pluginsFlagValue otc collected] ++ ["-q", ">", out]
    let fc' := String.intercalate " " command
    let spec : RunSpec := ⟨command, .toFile out⟩
    let r := runner spec
    if r.returncode != 0 then
      (.error (.runtimeError ("target-query failed with return code " ++
        toString r.returncode)), tr ++ [spec])
    else
      dissectLoop otc collected mkOut runner (n + 1) (some fc') (tr ++ [spec])
        (outs ++ [out]) rest

def dissect (otc : Option TaskConfig) (collected : List String)
    (mkOut : Nat → String) (runner : Runner) (version : String)
    (input_files : List InputFile) :
    Except TaskError TaskResult × List RunSpec :=
  match dissectLoop otc collected mkOut runner 0 none [] [] input_files with
  | (.ok (fc, outs), tr) => (.ok ⟨outs, fc, version⟩, tr)
  | (.error e, tr) => (.error e, tr)

/- Substring test used to state claims about message and URL contents. -/

def subListOf (pat : List Char) : List Char → Bool
  | [] => pat.isEmpty
  | c :: rest => pat.isPrefixOf (c :: rest) || subListOf pat rest

def strContains (s pat : String) : Bool :=
  subListOf pat.data s.data

/- Whether an Except value is a success. -/

def exceptIsOk {ε α : Type} : Except ε α → Bool
  | .ok _ => true
  | .error _ => false

/- Helper lemmas. -/

theorem string_ne_of_nthchar (s t : String) (n : Nat)
    (h : s.data[n]? ≠ t.data[n]?) : s ≠ t :=
  fun he => h (by rw [he])

theorem subListOf_append_right (pat ys : List Char) (xs : List Char)
    (h : subListOf pat ys = true) : subListOf pat (xs ++ ys) = true := by
  induction xs with
  | nil => simpa using h
  | cons c rest ih =>
    simp only [List.cons_append, subListOf, Bool.or_eq_true]
    exact Or.inr ih

theorem strContains_of_suffix (a b : String) (pat : String)
    (h : subListOf pat.data b.data = true) : strContains (a ++ b) pat = true := by
  simp only [strContains, String.data_append]
  exact subListOf_append_right pat.data b.data a.data h

theorem rdumpMsg_ne_tokenMsg (x : String) :
    ("Rdump failed with return code " ++ x) ≠
      "Splunk HEC token is required for HTTP(S) protocol" := by
  apply string_ne_of_nthchar _ _ 0
  cases x with
  | mk d =>
    intro h
    simp [String.data_append] at h

theorem selMsg_ne_tokenMsg (key x : String) :
    ((("Select only one " ++ key) ++ ", got ") ++ x) ≠
      "Splunk HEC token is required for HTTP(S) protocol" := by
  apply string_ne_of_nthchar _ _ 1
  cases key with
  | mk dk =>
    cases x with
    | mk dx =>
      intro h
      simp [String.data_append] at h

theorem checkSingle_error_shape (cfg : TaskConfig) (key : String) (e : TaskError)
    (h : checkSingle cfg key = .error e) :
    ∃ l, e = .runtimeError ((("Select only one " ++ key) ++ ", got ") ++ pyReprList l) := by
  unfold checkSingle at h
  split at h
  · rename_i l hv
    split at h
    · refine ⟨l, ?_⟩
      injection h with h2
      rw [← h2]
    · exact absurd h (by simp)
  · exact absurd h (by simp)

theorem pyLowerChoice_error_shape (v : ConfigVal) (d : String) (e : TaskError)
    (h : pyLowerChoice v d = .error e) : e = .attributeError "lower" := by
  unfold pyLowerChoice at h
  split at h <;> first
    | (exact absurd h (by simp))
    | (split at h
       · injection h with h2; rw [← h2]
       · exact absurd h (by simp))

theorem tokenPiece_error_shape (cfg : TaskConfig) (protocol : String) (e : TaskError)
    (h : tokenPiece cfg protocol = .error e) : ∃ m, e = .typeError m := by
  unfold tokenPiece at h
  split at h
  · split at h
    · exact absurd h (by simp)
    · refine ⟨"sequence item: expected str instance", ?_⟩
      injection h with h2
      rw [← h2]
  · exact absurd h (by simp)

theorem buildParams_error_shape (cfg : TaskConfig) (protocol sourcetype : String)
    (e : TaskError) (h : buildParams cfg protocol sourcetype = .error e) :
    ∃ m, e = .typeError m := by
  unfold buildParams at h
  split at h
  · rename_i e' he
    injection h with h2
    rw [← h2]
    exact tokenPiece_error_shape cfg protocol e' he
  · exact absurd h (by simp)

theorem buildFullUrl_error_shape (cfg : TaskConfig) (host port protocol sourcetype : String)
    (e : TaskError) (h : buildFullUrl cfg host port protocol sourcetype = .error e) :
    ∃ m, e = .typeError m := by
  unfold buildFullUrl at h
  split at h
  · rename_i e' he
    injection h with h2
    rw [← h2]
    exact buildParams_error_shape cfg protocol sourcetype e' he
  · exact absurd h (by simp)

theorem splunkLoop_error_shape (cfg : TaskConfig) (host port protocol sourcetype : String)
    (runner : Runner) (e : TaskError) :
    ∀ (files : List InputFile) (fc : Option String) (tr : List RunSpec),
    (splunkLoop cfg host port protocol sourcetype runner fc tr files).1 = .error e →
    e = .nameError "final_command" ∨ (∃ m, e = .typeError m) ∨
      (∃ c : Int, e = .runtimeError ("Rdump failed with return code " ++ toString c)) := by
  intro files
  induction files with
  | nil =>
    intro fc tr h
    simp only [splunkLoop] at h
    split at h
    · exact absurd h (by simp)
    · injection h with h2
      exact Or.inl h2.symm
  | cons f rest ih =>
    intro fc tr h
    simp only [splunkLoop] at h
    split at h
    · rename_i e' he
      injection h with h2
      rcases buildFullUrl_error_shape cfg host port protocol sourcetype e' he with ⟨m, hm⟩
      exact Or.inr (Or.inl ⟨m, by rw [← h2, hm]⟩)
    · split at h
      · injection h with h2
        exact Or.inr (Or.inr ⟨_, h2.symm⟩)
      · exact ih _ _ h

/- Claim theorems. -/

/-- Claim C1, counterexample to the claim as stated: when the tool exits
with code 2 and stderr "bad input", the raised message is exactly
"Rdump failed with return code 2" — it contains the exit code but does
not contain the captured stderr text. -/
theorem toolFailure_stderr_not_in_message :
    rdump2jsonl [⟨"/in/a"⟩] (fun _ => ⟨2, "bad input"⟩) "v"
      = (.error (.runtimeError "Rdump failed with return code 2"),
         [⟨["rdump", "/in/a", "-J"], .pipe⟩])
    ∧ strContains "Rdump failed with return code 2" "2" = true
    ∧ strContains "Rdump failed with return code 2" "bad input" = false :=
  ⟨rfl, rfl, rfl⟩

/-- Claim C1 (amended): when the spawned tool exits with a non-zero code for
an input file, both rdump tasks raise a RuntimeError whose message carries
the exit code (the captured stderr text is only logged, not part of the
message), the remaining input files in the batch are not attempted (exactly
the one failing process is spawned), and no result envelope is returned. -/
theorem toolFailure_aborts_task :
    (∀ (f : InputFile) (rest : List InputFile) (runner : Runner) (v : String) (c : Int),
      (runner ⟨["rdump", f.path, "-J"], .pipe⟩).returncode = c → c ≠ 0 →
      rdump2jsonl (f :: rest) runner v =
        (.error (.runtimeError ("Rdump failed with return code " ++ toString c)),
         [⟨["rdump", f.path, "-J"], .pipe⟩]))
    ∧ (∀ (env : EnvMap) (cfg : TaskConfig) (f : InputFile) (rest : List InputFile)
        (runner : Runner) (v : String) (host port protocol sourcetype u : String) (c : Int),
      splunkPre env cfg = .ok (host, port, protocol, sourcetype) →
      buildFullUrl cfg host port protocol sourcetype = .ok u →
      (runner ⟨["rdump", f.path, "-w", u], .pipe⟩).returncode = c → c ≠ 0 →
      rdump2splunk env cfg (f :: rest) runner v =
        (.error (.runtimeError ("Rdump failed with return code " ++ toString c)),
         [⟨["rdump", f.path, "-w", u], .pipe⟩])) := by
  constructor
  · intro f rest runner v c hr hc
    simp only [rdump2jsonl, rdump2jsonl_go, List.cons_append, List.nil_append]
    rw [hr]
    simp [hc]
  · intro env cfg f rest runner v host port protocol sourcetype u c hpre hurl hr hc
    simp only [rdump2splunk]
    rw [hpre]
    simp only [splunkLoop]
    rw [hurl]
    simp only [List.cons_append, List.nil_append]
    rw [hr]
    simp [hc]

/-- Claim C1 witness: concrete failing runs of both tasks. -/
theorem toolFailure_aborts_task_witness :
    rdump2jsonl [⟨"/in/b"⟩, ⟨"/in/c"⟩] (fun _ => ⟨3, "boom"⟩) "v"
      = (.error (.runtimeError "Rdump failed with return code 3"),
         [⟨["rdump", "/in/b", "-J"], .pipe⟩])
    ∧ rdump2splunk
        (fun k => if k == "SPLUNK_HOST" then some "10.0.0.1"
                  else if k == "SPLUNK_PORT" then some "8088" else none)
        [] [⟨"/in/b"⟩, ⟨"/in/c"⟩] (fun _ => ⟨3, "boom"⟩) "v"
      = (.error (.runtimeError "Rdump failed with return code 3"),
         [⟨["rdump", "/in/b", "-w", "splunk+tcp://10.0.0.1:8088?sourcetype=records"],
           .pipe⟩]) :=
  ⟨toolFailure_aborts_task.1 ⟨"/in/b"⟩ [⟨"/in/c"⟩] (fun _ => ⟨3, "boom"⟩) "v" 3 rfl
      (by decide),
   toolFailure_aborts_task.2
      (fun k => if k == "SPLUNK_HOST" then some "10.0.0.1"
                else if k == "SPLUNK_PORT" then some "8088" else none)
      [] ⟨"/in/b"⟩ [⟨"/in/c"⟩] (fun _ => ⟨3, "boom"⟩) "v"
      "10.0.0.1" "8088" "tcp" "records" "splunk+tcp://10.0.0.1:8088?sourcetype=records" 3
      (by rfl) (by rfl) rfl (by decide)⟩

/-- Claim C7: with one input file and the default (empty) configuration the
simple-transform task builds exactly the vector ["rdump", path, "-J"]; when
the tool exits 0 the returned envelope has an empty output-file list and a
command string containing "-J". -/
theorem jsonl_default_command (path : String) (runner : Runner) (v : String)
    (h : (runner ⟨["rdump", path, "-J"], .pipe⟩).returncode = 0) :
    rdump2jsonl [⟨path⟩] runner v =
      (.ok ⟨[], String.intercalate " " ["rdump", path, "-J"], v⟩,
       [⟨["rdump", path, "-J"], .pipe⟩])
    ∧ strContains (String.intercalate " " ["rdump", path, "-J"]) "-J" = true := by
  constructor
  · simp only [rdump2jsonl, rdump2jsonl_go, List.cons_append, List.nil_append]
    rw [h]
    simp
  · show strContains (((("rdump" ++ " ") ++ path) ++ " ") ++ "-J") "-J" = true
    exact strContains_of_suffix _ "-J" "-J" (by decide)

/-- Claim C7 witness: a concrete successful single-file run. -/
theorem jsonl_default_command_witness :
    rdump2jsonl [⟨"/in/a"⟩] (fun _ => ⟨0, ""⟩) "v" =
      (.ok ⟨[], "rdump /in/a -J", "v"⟩, [⟨["rdump", "/in/a", "-J"], .pipe⟩])
    ∧ strContains "rdump /in/a -J" "-J" = true :=
  jsonl_default_command "/in/a" (fun _ => ⟨0, ""⟩) "v" rfl

/-- Claim C10: invoked with an empty input-file list, the simple-transform
and forward-to-remote tasks never return a result envelope: the loop body
never runs, so the final command local is referenced unassigned during
result assembly and the task fails (for the forward-to-remote task, with
the NameError whenever the pre-loop phase succeeds); no process is
spawned. -/
theorem empty_input_no_result_envelope :
    (∀ (runner : Runner) (v : String),
      rdump2jsonl [] runner v = (.error (.nameError "final_command"), []))
    ∧ (∀ (env : EnvMap) (cfg : TaskConfig) (runner : Runner) (v : String),
      exceptIsOk (rdump2splunk env cfg [] runner v).1 = false
        ∧ (rdump2splunk env cfg [] runner v).2 = [])
    ∧ (∀ (env : EnvMap) (cfg : TaskConfig) (runner : Runner) (v : String)
        (host port protocol sourcetype : String),
      splunkPre env cfg = .ok (host, port, protocol, sourcetype) →
      rdump2splunk env cfg [] runner v = (.error (.nameError "final_command"), [])) := by
  refine ⟨fun runner v => rfl, ?_, ?_⟩
  · intro env cfg runner v
    simp only [rdump2splunk]
    cases hpre : splunkPre env cfg with
    | error e => simp [exceptIsOk]
    | ok q =>
      obtain ⟨host, port, protocol, sourcetype⟩ := q
      simp [splunkLoop, exceptIsOk]
  · intro env cfg runner v host port protocol sourcetype hpre
    simp only [rdump2splunk]
    rw [hpre]
    simp [splunkLoop]

/-- Claim C10 witness: concrete empty-input runs. -/
theorem empty_input_no_result_envelope_witness :
    rdump2jsonl [] (fun _ => ⟨0, ""⟩) "v" = (.error (.nameError "final_command"), [])
    ∧ rdump2splunk
        (fun k => if k == "SPLUNK_HOST" then some "10.0.0.1"
                  else if k == "SPLUNK_PORT" then some "8088" else none)
        [] [] (fun _ => ⟨0, ""⟩) "v" = (.error (.nameError "final_command"), []) :=
  ⟨empty_input_no_result_envelope.1 (fun _ => ⟨0, ""⟩) "v",
   empty_input_no_result_envelope.2.2
      (fun k => if k == "SPLUNK_HOST" then some "10.0.0.1"
                else if k == "SPLUNK_PORT" then some "8088" else none)
      [] (fun _ => ⟨0, ""⟩) "v" "10.0.0.1" "8088" "tcp" "records" (by rfl)⟩

/-- Claim C2: whenever the normalized protocol is http or https and no
truthy token is supplied, the forward-to-remote task fails with the
token-required configuration error and no process is spawned; when the
normalized protocol is tcp, the task never raises the token-required
error. -/
theorem token_required_for_http_protocols :
    (∀ (env : EnvMap) (cfg : TaskConfig) (files : List InputFile) (runner : Runner)
        (v : String) (p st : String),
      pyTruthyOpt (env "SPLUNK_HOST") = true →
      pyTruthyOpt (env "SPLUNK_PORT") = true →
      checkSingle cfg "protocol" = .ok () →
      checkSingle cfg "sourcetype" = .ok () →
      pyLowerChoice (cfgGetD cfg "protocol" (.vstr "tcp")) "tcp" = .ok p →
      pyLowerChoice (cfgGetD cfg "sourcetype" (.vstr "records")) "records" = .ok st →
      (p = "http" ∨ p = "https") →
      pyTruthy (cfgGet cfg "token") = false →
      rdump2splunk env cfg files runner v =
        (.error (.runtimeError "Splunk HEC token is required for HTTP(S) protocol"), []))
    ∧ (∀ (env : EnvMap) (cfg : TaskConfig) (files : List InputFile) (runner : Runner)
        (v : String),
      pyLowerChoice (cfgGetD cfg "protocol" (.vstr "tcp")) "tcp" = .ok "tcp" →
      (rdump2splunk env cfg files runner v).1 ≠
        .error (.runtimeError "Splunk HEC token is required for HTTP(S) protocol")) := by
  constructor
  · intro env cfg files runner v p st hh hp hcp hcs hlp hls hor htok
    have hcond : (p == "http" || p == "https") = true := by
      rcases hor with h | h <;> simp [h]
    simp only [rdump2splunk, splunkPre, hh, hp, hcp, hcs, hlp, hls, htok, hcond]
    simp
  · intro env cfg files runner v hlp hcontra
    rw [rdump2splunk] at hcontra
    cases hpre : splunkPre env cfg with
    | error e =>
      rw [hpre] at hcontra
      simp only at hcontra
      injection hcontra with he
      rw [splunkPre] at hpre
      split at hpre
      · injection hpre with h2
        rw [← h2] at he
        injection he with hmsg
        exact absurd hmsg (by decide)
      · split at hpre
        · rename_i e1 hcp
          injection hpre with h2
          rcases checkSingle_error_shape cfg "protocol" e1 hcp with ⟨l, hl⟩
          rw [← h2, hl] at he
          injection he with hmsg
          exact selMsg_ne_tokenMsg "protocol" (pyReprList l) hmsg
        · split at hpre
          · rename_i e1 hcs
            injection hpre with h2
            rcases checkSingle_error_shape cfg "sourcetype" e1 hcs with ⟨l, hl⟩
            rw [← h2, hl] at he
            injection he with hmsg
            exact selMsg_ne_tokenMsg "sourcetype" (pyReprList l) hmsg
          · split at hpre
            · rename_i e1 hls
              rw [hlp] at hls
              exact Except.noConfusion hls
            · rename_i protocol1 hpok
              have hptc : "tcp" = protocol1 := by
                have h3 := hlp.symm.trans hpok
                injection h3
              subst hptc
              split at hpre
              · rename_i e1 hls
                injection hpre with h2
                have h4 := pyLowerChoice_error_shape _ _ _ hls
                rw [← h2, h4] at he
                exact TaskError.noConfusion he
              · simp at hpre
    | ok q =>
      obtain ⟨host, port, protocol, sourcetype⟩ := q
      rw [hpre] at hcontra
      simp only at hcontra
      cases hloop : splunkLoop cfg host port protocol sourcetype runner none [] files with
      | mk res tr =>
        rw [hloop] at hcontra
        cases res with
        | ok fc => simp at hcontra
        | error e =>
          simp only at hcontra
          injection hcontra with he
          have hshape := splunkLoop_error_shape cfg host port protocol sourcetype runner e
            files none [] (by rw [hloop])
          rcases hshape with h1 | ⟨m, h1⟩ | ⟨c, h1⟩
          · rw [h1] at he
            exact TaskError.noConfusion he
          · rw [h1] at he
            exact TaskError.noConfusion he
          · rw [h1] at he
            injection he with hmsg
            exact rdumpMsg_ne_tokenMsg (toString c) hmsg

/-- Claim C2 witness: https with no token fails with the token error; a
default tcp configuration never produces the token error. -/
theorem token_required_for_http_protocols_witness :
    rdump2splunk
        (fun k => if k == "SPLUNK_HOST" then some "10.0.0.1"
                  else if k == "SPLUNK_PORT" then some "8088" else none)
        [("protocol", ConfigVal.vstr "https")] [⟨"/in/a"⟩] (fun _ => ⟨0, ""⟩) "v"
      = (.error (.runtimeError "Splunk HEC token is required for HTTP(S) protocol"), [])
    ∧ (rdump2splunk
        (fun k => if k == "SPLUNK_HOST" then some "10.0.0.1"
                  else if k == "SPLUNK_PORT" then some "8088" else none)
        [] [] (fun _ => ⟨0, ""⟩) "v").1 ≠
      .error (.runtimeError "Splunk HEC token is required for HTTP(S) protocol") :=
  ⟨token_required_for_http_protocols.1
      (fun k => if k == "SPLUNK_HOST" then some "10.0.0.1"
                else if k == "SPLUNK_PORT" then some "8088" else none)
      [("protocol", ConfigVal.vstr "https")] [⟨"/in/a"⟩] (fun _ => ⟨0, ""⟩) "v"
      "https" "records" rfl rfl (by rfl) (by rfl) (by rfl) (by rfl) (Or.inr rfl) rfl,
   token_required_for_http_protocols.2
      (fun k => if k == "SPLUNK_HOST" then some "10.0.0.1"
                else if k == "SPLUNK_PORT" then some "8088" else none)
      [] [] (fun _ => ⟨0, ""⟩) "v" (by rfl)⟩

/-- Claim C4: if either remote-sink environment variable is unset, the
forward-to-remote task fails with the environment configuration error once
per invocation — the result is the same whatever the input files — and no
process is spawned. -/
theorem missing_env_fails_before_spawn (env : EnvMap) (cfg : TaskConfig)
    (files : List InputFile) (runner : Runner) (v : String)
    (h : env "SPLUNK_HOST" = none ∨ env "SPLUNK_PORT" = none) :
    rdump2splunk env cfg files runner v =
      (.error (.runtimeError
        "SPLUNK_HOST and SPLUNK_PORT environment variables are required"), []) := by
  have hcond : (!pyTruthyOpt (env "SPLUNK_HOST") || !pyTruthyOpt (env "SPLUNK_PORT"))
      = true := by
    rcases h with h | h <;> rw [h] <;> simp [pyTruthyOpt]
  simp only [rdump2splunk, splunkPre, hcond]
  simp

/-- Claim C4 witness: a concrete run with no environment and two files. -/
theorem missing_env_fails_before_spawn_witness :
    rdump2splunk (fun _ => none) [] [⟨"/in/a"⟩, ⟨"/in/b"⟩] (fun _ => ⟨0, ""⟩) "v" =
      (.error (.runtimeError
        "SPLUNK_HOST and SPLUNK_PORT environment variables are required"), []) :=
  missing_env_fails_before_spawn (fun _ => none) [] [⟨"/in/a"⟩, ⟨"/in/b"⟩]
    (fun _ => ⟨0, ""⟩) "v" (Or.inl rfl)

/-- Claim C5: when the environment variables are set, a multi-element list
for a single-choice field (protocol, or sourcetype once the protocol check
passes) makes the forward-to-remote task fail deterministically with the
RuntimeError naming the offending field and the received values, and no
process is spawned. -/
theorem multi_valued_choice_rejected :
    (∀ (env : EnvMap) (cfg : TaskConfig) (files : List InputFile) (runner : Runner)
        (v : String) (l : List String),
      pyTruthyOpt (env "SPLUNK_HOST") = true →
      pyTruthyOpt (env "SPLUNK_PORT") = true →
      cfgGet cfg "protocol" = .vlist l → l.length > 1 →
      rdump2splunk env cfg files runner v =
        (.error (.runtimeError ("Select only one protocol, got " ++ pyReprList l)), []))
    ∧ (∀ (env : EnvMap) (cfg : TaskConfig) (files : List InputFile) (runner : Runner)
        (v : String) (l : List String),
      pyTruthyOpt (env "SPLUNK_HOST") = true →
      pyTruthyOpt (env "SPLUNK_PORT") = true →
      checkSingle cfg "protocol" = .ok () →
      cfgGet cfg "sourcetype" = .vlist l → l.length > 1 →
      rdump2splunk env cfg files runner v =
        (.error (.runtimeError ("Select only one sourcetype, got " ++ pyReprList l)), [])) := by
  constructor
  · intro env cfg files runner v l hh hp hl hlen
    have hcs : checkSingle cfg "protocol" =
        .error (.runtimeError ("Select only one " ++ "protocol" ++ ", got " ++ pyReprList l)) := by
      unfold checkSingle
      rw [hl]
      simp [hlen]
    simp only [rdump2splunk, splunkPre, hh, hp, hcs]
    simp
  · intro env cfg files runner v l hh hp hcp hl hlen
    have hcs : checkSingle cfg "sourcetype" =
        .error (.runtimeError ("Select only one " ++ "sourcetype" ++ ", got " ++ pyReprList l)) := by
      unfold checkSingle
      rw [hl]
      simp [hlen]
    simp only [rdump2splunk, splunkPre, hh, hp, hcp, hcs]
    simp

/-- Claim C5 witness: concrete two-element protocol and sourcetype lists. -/
theorem multi_valued_choice_rejected_witness :
    rdump2splunk
        (fun k => if k == "SPLUNK_HOST" then some "10.0.0.1"
                  else if k == "SPLUNK_PORT" then some "8088" else none)
        [("protocol", ConfigVal.vlist ["tcp", "http"])] [⟨"/in/a"⟩] (fun _ => ⟨0, ""⟩) "v"
      = (.error (.runtimeError
          "Select only one protocol, got [\x27tcp\x27, \x27http\x27]"), [])
    ∧ rdump2splunk
        (fun k => if k == "SPLUNK_HOST" then some "10.0.0.1"
                  else if k == "SPLUNK_PORT" then some "8088" else none)
        [("sourcetype", ConfigVal.vlist ["records", "json"])] [⟨"/in/a"⟩]
        (fun _ => ⟨0, ""⟩) "v"
      = (.error (.runtimeError
          "Select only one sourcetype, got [\x27records\x27, \x27json\x27]"), []) :=
  ⟨multi_valued_choice_rejected.1
      (fun k => if k == "SPLUNK_HOST" then some "10.0.0.1"
                else if k == "SPLUNK_PORT" then some "8088" else none)
      [("protocol", ConfigVal.vlist ["tcp", "http"])] [⟨"/in/a"⟩] (fun _ => ⟨0, ""⟩) "v"
      ["tcp", "http"] rfl rfl (by rfl) (by decide),
   multi_valued_choice_rejected.2
      (fun k => if k == "SPLUNK_HOST" then some "10.0.0.1"
                else if k == "SPLUNK_PORT" then some "8088" else none)
      [("sourcetype", ConfigVal.vlist ["records", "json"])] [⟨"/in/a"⟩]
      (fun _ => ⟨0, ""⟩) "v"
      ["records", "json"] rfl rfl (by rfl) (by rfl) (by decide)⟩

theorem cfgGetD_of_get_vnone (d : ConfigVal) (tc : TaskConfig) (k : String)
    (h : cfgGet tc k = .vnone) : cfgGetD tc k d = d ∨ cfgGetD tc k d = .vnone := by
  induction tc with
  | nil => exact Or.inl rfl
  | cons p rest ih =>
    obtain ⟨k1, v1⟩ := p
    unfold cfgGet at h
    unfold cfgGetD
    by_cases hk : (k1 == k) = true
    · rw [if_pos hk] at h
      rw [if_pos hk]
      exact Or.inr h
    · rw [if_neg hk] at h
      rw [if_neg hk]
      exact ih h

/-- Claim C3: with protocol https, disable_ssl set, token "abc", host
10.0.0.1 and port 8088, the destination URL built for the input file is
splunk+https://10.0.0.1:8088?sourcetype=records&token=abc&ssl_verify=false,
which contains the base URL, the default sourcetype parameter, the token
parameter and the SSL-verification-disabled marker; additionally, the
marker piece is appended iff the protocol is https and the flag is truthy,
and the token piece is appended only for the http and https protocols. -/
theorem splunk_url_construction :
    rdump2splunk
        (fun k => if k == "SPLUNK_HOST" then some "10.0.0.1"
                  else if k == "SPLUNK_PORT" then some "8088" else none)
        [("protocol", ConfigVal.vstr "https"), ("disable_ssl", ConfigVal.vbool true),
         ("token", ConfigVal.vstr "abc")]
        [⟨"/in/a"⟩] (fun _ => ⟨0, ""⟩) "v"
      = (.ok ⟨[],
          "rdump /in/a -w splunk+https://10.0.0.1:8088?sourcetype=records&token=abc&ssl_verify=false",
          "v"⟩,
         [⟨["rdump", "/in/a", "-w",
            "splunk+https://10.0.0.1:8088?sourcetype=records&token=abc&ssl_verify=false"],
           .pipe⟩])
    ∧ strContains
        "splunk+https://10.0.0.1:8088?sourcetype=records&token=abc&ssl_verify=false"
        "splunk+https://10.0.0.1:8088" = true
    ∧ strContains
        "splunk+https://10.0.0.1:8088?sourcetype=records&token=abc&ssl_verify=false"
        "sourcetype=records" = true
    ∧ strContains
        "splunk+https://10.0.0.1:8088?sourcetype=records&token=abc&ssl_verify=false"
        "token=abc" = true
    ∧ strContains
        "splunk+https://10.0.0.1:8088?sourcetype=records&token=abc&ssl_verify=false"
        "&ssl_verify=false" = true
    ∧ (∀ (cfg : TaskConfig) (protocol : String),
        sslPiece cfg protocol = ["&ssl_verify=false"] ↔
          (protocol = "https" ∧ pyTruthy (cfgGet cfg "disable_ssl") = true))
    ∧ (∀ (cfg : TaskConfig) (protocol : String),
        protocol ≠ "http" → protocol ≠ "https" → tokenPiece cfg protocol = .ok []) := by
  refine ⟨rfl, rfl, rfl, rfl, rfl, ?_, ?_⟩
  · intro cfg protocol
    constructor
    · intro h
      have hc : (protocol == "https" && pyTruthy (cfgGet cfg "disable_ssl")) = true := by
        by_contra hc
        unfold sslPiece at h
        rw [if_neg hc] at h
        exact List.noConfusion h
      simp only [Bool.and_eq_true] at hc
      obtain ⟨h1, h2⟩ := hc
      exact ⟨by simpa using h1, h2⟩
    · rintro ⟨h1, h2⟩
      subst h1
      unfold sslPiece
      simp [h2]
  · intro cfg protocol h1 h2
    unfold tokenPiece
    have hc : (protocol == "http" || protocol == "https") = false := by
      simp [h1, h2]
    rw [hc]
    simp

/-- Claim C3 witness: the piece-level facts at concrete inputs. -/
theorem splunk_url_construction_witness :
    sslPiece [("disable_ssl", ConfigVal.vbool true)] "https" = ["&ssl_verify=false"]
    ∧ tokenPiece [("token", ConfigVal.vstr "abc")] "tcp" = .ok [] :=
  ⟨(splunk_url_construction.2.2.2.2.2.1 [("disable_ssl", ConfigVal.vbool true)]
      "https").mpr ⟨rfl, rfl⟩,
   splunk_url_construction.2.2.2.2.2.2 [("token", ConfigVal.vstr "abc")] "tcp"
      (by decide) (by decide)⟩

/-- Claim C6: with plugin catalog A,B,C and task_config plugins=["B"], the
structured-export task passes exactly "B" as the -f flag value (not
"A,B,C"); when the plugins setting is absent the flag value is the
comma-join of the full discovered catalog. -/
theorem plugin_flag_selection :
    dissect (some [("plugins", ConfigVal.vlist ["B"])]) ["A", "B", "C"]
        (fun n => "/out/" ++ toString n) (fun _ => ⟨0, ""⟩) "v" [⟨"/in/a"⟩]
      = (.ok ⟨["/out/0"], "target-query /in/a -f B -q > /out/0", "v"⟩,
         [⟨["target-query", "/in/a", "-f", "B", "-q", ">", "/out/0"], .toFile "/out/0"⟩])
    ∧ pluginsFlagValue (some [("plugins", ConfigVal.vlist ["B"])]) ["A", "B", "C"] = "B"
    ∧ (∀ (otc : Option TaskConfig) (collected : List String),
        (∀ tc, otc = some tc → cfgGet tc "plugins" = .vnone) →
        pluginsFlagValue otc collected = String.intercalate "," collected) := by
  refine ⟨rfl, rfl, ?_⟩
  intro otc collected hn
  cases otc with
  | none => rfl
  | some tc =>
    have h := hn tc rfl
    by_cases he : tc.isEmpty = true
    · unfold pluginsFlagValue pluginsList
      simp [he]
    · simp only [Bool.not_eq_true] at he
      rcases cfgGetD_of_get_vnone (.vlist collected) tc "plugins" h with h2 | h2 <;>
        · unfold pluginsFlagValue pluginsList
          simp [he, h2]

/-- Claim C6 witness: a configuration without the plugins key yields the
comma-join of the catalog. -/
theorem plugin_flag_selection_witness :
    pluginsFlagValue (some [("protocol", ConfigVal.vstr "tcp")]) ["A", "B", "C"]
      = "A,B,C" :=
  plugin_flag_selection.2.2 (some [("protocol", ConfigVal.vstr "tcp")]) ["A", "B", "C"]
    (fun tc htc => by injection htc with h2; rw [← h2]; rfl)

/-- Claim C8, counterexample to the claim as stated: with catalog A,B,C and
the selection ["Z"], whose entry is not in the catalog, the
structured-export task reports success and passes "Z" straight through as
the -f flag value instead of failing with a configuration error. -/
theorem unknown_plugin_passed_through :
    dissect (some [("plugins", ConfigVal.vlist ["Z"])]) ["A", "B", "C"]
        (fun n => "/out/" ++ toString n) (fun _ => ⟨0, ""⟩) "v" [⟨"/in/a"⟩]
      = (.ok ⟨["/out/0"], "target-query /in/a -f Z -q > /out/0", "v"⟩,
         [⟨["target-query", "/in/a", "-f", "Z", "-q", ">", "/out/0"], .toFile "/out/0"⟩])
    ∧ (["A", "B", "C"] : List String).contains "Z" = false :=
  ⟨rfl, rfl⟩

/-- Claim C8 (amended): a supplied plugin selection is not validated against
the discovered catalog: any list value — including one whose names are not
in the catalog — is comma-joined and passed through as the -f flag value;
only a non-list value falls back to the full catalog. -/
theorem plugin_selection_not_validated (tc : TaskConfig) (collected l : List String)
    (hne : tc ≠ []) (hl : cfgGetD tc "plugins" (.vlist collected) = .vlist l) :
    pluginsFlagValue (some tc) collected = String.intercalate "," l := by
  have he : tc.isEmpty = false := by
    cases tc with
    | nil => exact absurd rfl hne
    | cons a b => rfl
  unfold pluginsFlagValue pluginsList
  simp [he, hl]

/-- Claim C8 witness: the unknown selection ["Z"] is joined verbatim. -/
theorem plugin_selection_not_validated_witness :
    pluginsFlagValue (some [("plugins", ConfigVal.vlist ["Z"])]) ["A", "B", "C"] = "Z" :=
  plugin_selection_not_validated [("plugins", ConfigVal.vlist ["Z"])] ["A", "B", "C"]
    ["Z"] (by decide) (by rfl)

theorem dissectLoop_trace_shape (otc : Option TaskConfig) (collected : List String)
    (mkOut : Nat → String) (runner : Runner) :
    ∀ (files : List InputFile) (n : Nat) (fc : Option String) (tr : List RunSpec)
      (outs : List String) (spec : RunSpec),
    spec ∈ (dissectLoop otc collected mkOut runner n fc tr outs files).2 →
    spec ∈ tr ∨ ∃ path out, spec.args =
        ["target-query", path, "-f", pluginsFlagValue otc collected, "-q", ">", out]
      ∧ spec.dest = .toFile out := by
  intro files
  induction files with
  | nil =>
    intro n fc tr outs spec h
    simp only [dissectLoop] at h
    exact Or.inl h
  | cons f rest ih =>
    intro n fc tr outs spec h
    simp only [dissectLoop] at h
    split at h
    · rcases List.mem_append.mp h with h1 | h1
      · exact Or.inl h1
      · have h2 := List.mem_singleton.mp h1
        subst h2
        exact Or.inr ⟨f.path, mkOut n, by simp, rfl⟩
    · rcases ih _ _ _ _ spec h with h1 | h1
      · rcases List.mem_append.mp h1 with h2 | h2
        · exact Or.inl h2
        · have h3 := List.mem_singleton.mp h2
          subst h3
          exact Or.inr ⟨f.path, mkOut n, by simp, rfl⟩
      · exact Or.inr h1

/-- Claim C9: every process the structured-export task spawns receives the
literal strings "-q", ">" and the output file path as trailing positional
arguments in its argument vector — there is no shell to interpret ">" —
while the actual redirection of standard output is done through the opened
output file handle recorded as the stdout destination. -/
theorem dissect_literal_redirection_args (otc : Option TaskConfig)
    (collected : List String) (mkOut : Nat → String) (runner : Runner) (v : String)
    (files : List InputFile) (spec : RunSpec)
    (h : spec ∈ (dissect otc collected mkOut runner v files).2) :
    ∃ path out, spec.args =
        ["target-query", path, "-f", pluginsFlagValue otc collected, "-q", ">", out]
      ∧ spec.dest = .toFile out
      ∧ "-q" ∈ spec.args ∧ ">" ∈ spec.args ∧ out ∈ spec.args := by
  have h2 : spec ∈ (dissectLoop otc collected mkOut runner 0 none [] [] files).2 := by
    unfold dissect at h
    rcases hl : dissectLoop otc collected mkOut runner 0 none [] [] files with ⟨res, tr⟩
    rw [hl] at h
    cases res with
    | ok q =>
      obtain ⟨fc, outs⟩ := q
      exact h
    | error e =>
      exact h
  rcases dissectLoop_trace_shape otc collected mkOut runner files 0 none [] [] spec h2
      with h3 | ⟨path, out, hargs, hdest⟩
  · simp at h3
  · refine ⟨path, out, hargs, hdest, ?_, ?_, ?_⟩ <;> rw [hargs] <;> simp

/-- Claim C9 witness: the single process of a concrete one-file run. -/
theorem dissect_literal_redirection_args_witness :
    ∃ path out,
      (⟨["target-query", "/in/a", "-f", "A,B", "-q", ">", "/out/0"],
        .toFile "/out/0"⟩ : RunSpec).args =
        ["target-query", path, "-f", pluginsFlagValue none ["A", "B"], "-q", ">", out]
      ∧ (⟨["target-query", "/in/a", "-f", "A,B", "-q", ">", "/out/0"],
          .toFile "/out/0"⟩ : RunSpec).dest = .toFile out
      ∧ "-q" ∈ (⟨["target-query", "/in/a", "-f", "A,B", "-q", ">", "/out/0"],
          .toFile "/out/0"⟩ : RunSpec).args
      ∧ ">" ∈ (⟨["target-query", "/in/a", "-f", "A,B", "-q", ">", "/out/0"],
          .toFile "/out/0"⟩ : RunSpec).args
      ∧ out ∈ (⟨["target-query", "/in/a", "-f", "A,B", "-q", ">", "/out/0"],
          .toFile "/out/0"⟩ : RunSpec).args :=
  dissect_literal_redirection_args none ["A", "B"] (fun n => "/out/" ++ toString n)
    (fun _ => ⟨0, ""⟩) "v" [⟨"/in/a"⟩]
    ⟨["target-query", "/in/a", "-f", "A,B", "-q", ">", "/out/0"], .toFile "/out/0"⟩
    (List.mem_singleton.mpr rfl)
